import Mathlib

/-
Shallow embedding of src/iot_driver_copilot/lightweight_m_2_m_client/driver.py.

The driver issues CoAP exchanges through aiocoap.  We model the network as an
oracle `net : String → Outcome` mapping a request URI to either a delivered
response message (of any CoAP status, as aiocoap's `.response` future delivers
error statuses normally) or a raised transport exception.  Each operation of
`LwM2MClient` is a pure function of the oracle that additionally returns the
list of exchanges it issued and the updated count of client messaging contexts
created so far (contexts are numbered by creation order, so a call entering
with counter `n` that creates a context obtains the fresh context `n`).
-/

/-- A byte sequence (Python `bytes`), each entry a value in 0..255. -/
abbrev Bytes := List Nat

/-- CoAP request codes used by the driver (`GET` / `POST` of aiocoap). -/
inductive CoapCode
  | GET
  | POST
deriving DecidableEq, Repr

/-- A delivered CoAP response message: its code name (`resp.code.name`) and its
payload bytes (`resp.payload`). -/
structure CoapResponse where
  name : String
  payload : Bytes
deriving DecidableEq, Repr

/-- Outcome of awaiting `ctx.request(req).response`: either a response message
(delivered whatever its status code) or a raised transport exception with a
message. -/
inductive Outcome
  | resp (r : CoapResponse)
  | exn (e : String)
deriving DecidableEq, Repr

/-- Whether the await delivered a response message (no exception raised). -/
def Outcome.isResp : Outcome → Bool
  | Outcome.resp _ => true
  | Outcome.exn _ => false

/-- The payload bytes of a delivered response (empty for an exception). -/
def Outcome.payloadBytes : Outcome → Bytes
  | Outcome.resp r => r.payload
  | Outcome.exn _ => []

/-- Record of one issued exchange: which messaging context carried it (and the
local port that context is bound to), the request code, the target URI, the
query parameters, and the request payload. -/
structure ExchangeRec where
  ctxId : Nat
  ctxPort : Nat
  method : CoapCode
  uri : String
  query : List String
  payload : Bytes
deriving DecidableEq, Repr

/-- The python decoder step for one UTF-8 sequence starting at byte `b` with
the following bytes `rest`: returns the decoded character (`none` when the
bytes are invalid and, under `errors="ignore"`, are silently dropped) together
with the number of bytes consumed (at least 1; on an invalid sequence the
maximal valid subpart is consumed, per CPython's UTF-8 decoder). -/
def decodeStep (b : Nat) (rest : Bytes) : Option Char × Nat :=
  if b < 128 then (some (Char.ofNat b), 1)
  else if 194 ≤ b ∧ b ≤ 223 then
    match rest with
    | b1 :: _ =>
      if 128 ≤ b1 ∧ b1 ≤ 191 then
        (some (Char.ofNat ((b - 192) * 64 + (b1 - 128))), 2)
      else (none, 1)
    | [] => (none, 1)
  else if 224 ≤ b ∧ b ≤ 239 then
    match rest with
    | b1 :: rest1 =>
      if (if b = 224 then 160 else 128) ≤ b1 ∧ b1 ≤ (if b = 237 then 159 else 191) then
        match rest1 with
        | b2 :: _ =>
          if 128 ≤ b2 ∧ b2 ≤ 191 then
            (some (Char.ofNat ((b - 224) * 4096 + (b1 - 128) * 64 + (b2 - 128))), 3)
          else (none, 2)
        | [] => (none, 2)
      else (none, 1)
    | [] => (none, 1)
  else if 240 ≤ b ∧ b ≤ 244 then
    match rest with
    | b1 :: rest1 =>
      if (if b = 240 then 144 else 128) ≤ b1 ∧ b1 ≤ (if b = 244 then 143 else 191) then
        match rest1 with
        | b2 :: rest2 =>
          if 128 ≤ b2 ∧ b2 ≤ 191 then
            match rest2 with
            | b3 :: _ =>
              if 128 ≤ b3 ∧ b3 ≤ 191 then
                (some (Char.ofNat
                  ((b - 240) * 262144 + (b1 - 128) * 4096 + (b2 - 128) * 64 + (b3 - 128))), 4)
              else (none, 3)
            | [] => (none, 3)
          else (none, 2)
        | [] => (none, 2)
      else (none, 1)
    | [] => (none, 1)
  else (none, 1)

/-- Fuelled loop of the permissive decoder; the fuel is the length of the byte
list, which suffices since every step consumes at least one byte. -/
def decodeIgnoreAux : Nat → Bytes → List Char
  | 0, _ => []
  | _ + 1, [] => []
  | fuel + 1, b :: rest =>
    let st := decodeStep b rest
    let tail := rest.drop (st.2 - 1)
    match st.1 with
    | some ch => ch :: decodeIgnoreAux fuel tail
    | none => decodeIgnoreAux fuel tail

/-- Model of Python `bytes.decode(errors="ignore")` (line 89 of the driver):
UTF-8 decoding that silently drops undecodable byte sequences and never
raises. -/
def pyDecodeIgnore (bs : Bytes) : String :=
  String.mk (decodeIgnoreAux bs.length bs)

/-- The `LWM2M_OBJECTS` constant of the driver: the fixed resource path
table.  Note it has eight entries, `power` included. -/
def LWM2M_OBJECTS : List (String × String) :=
  [("device_identity", "/3/0"),
   ("power", "/3/0/7"),
   ("memory_free", "/3/0/10"),
   ("memory_total", "/3/0/9"),
   ("network", "/4/0"),
   ("firmware_state", "/5/0/3"),
   ("firmware_result", "/5/0/5"),
   ("location", "/6/0")]

/-- The `LWM2M_REG_PATH` constant of the driver. -/
def LWM2M_REG_PATH : String := "/rd"

/-- The `LwM2MClient` constructor state: server address, server port, endpoint
name, and the local port its CoAP contexts bind to. -/
structure LwM2MClient where
  server_ip : String
  server_port : Nat
  epname : String
  coap_port : Nat
deriving DecidableEq, Repr

/-- An aiocoap client messaging context, identified by its creation index and
carrying the local address it was bound to. -/
structure Context where
  id : Nat
  bindHost : String
  bindPort : Nat
deriving DecidableEq, Repr

/-- Model of `LwM2MClient._get_context`: `Context.create_client_context` with
`bind=("0.0.0.0", self.coap_port)` creates a brand new context every time it
is called; with `n` contexts created so far, the new one is context `n` and
the count becomes `n + 1`. -/
def LwM2MClient.get_context (c : LwM2MClient) (n : Nat) : Context × Nat :=
  (⟨n, "0.0.0.0", c.coap_port⟩, n + 1)

/-- The URI composition used by every method of the driver:
`f"coap://{self.server_ip}:{self.server_port}{path}"`. -/
def mkUri (c : LwM2MClient) (path : String) : String :=
  "coap://" ++ c.server_ip ++ ":" ++ toString c.server_port ++ path

/-- The parsed request body handed to `register`: `objects` is `some l` when
the body has key `"objects"` with a list value `l`, and `none` when the key is
absent or its value is not a list (the driver guards with `isinstance(...,
list)`). -/
structure RegParams where
  objects : Option (List String)
deriving DecidableEq, Repr

/-- Model of `LwM2MClient.register` (driver lines 42-57): creates a fresh
context, builds the query `ep=`, `lt=86400`, `b=U`, appends
`lwm2m=<comma-joined objects>` whenever an object list is supplied (note: also
when that list is empty), and issues a POST to `/rd` with empty payload.  A
transport exception propagates to the caller as an error. -/
def LwM2MClient.register (c : LwM2MClient) (net : String → Outcome)
    (params : RegParams) (n : Nat) :
    Except String CoapResponse × List ExchangeRec × Nat :=
  let cn := c.get_context n
  let ctx := cn.1
  let n1 := cn.2
  let payload : Bytes := []
  let base := ["ep=" ++ c.epname, "lt=86400", "b=U"]
  let query :=
    match params.objects with
    | some objs => base ++ ["lwm2m=" ++ String.intercalate "," objs]
    | none => base
  let uri := mkUri c LWM2M_REG_PATH
  let req : ExchangeRec := ⟨ctx.id, ctx.bindPort, CoapCode.POST, uri, query, payload⟩
  match net uri with
  | Outcome.resp r => (Except.ok r, [req], n1)
  | Outcome.exn e => (Except.error e, [req], n1)

/-- Model of `LwM2MClient.execute_command` (driver lines 59-72): creates a
fresh context, dispatches the command name through the if/elif chain, raises
`Exception("Unknown command")` for anything else (before any exchange), and
otherwise issues a single POST to the mapped path with no query and no
payload. -/
def LwM2MClient.execute_command (c : LwM2MClient) (net : String → Outcome)
    (command : String) (n : Nat) :
    Except String CoapResponse × List ExchangeRec × Nat :=
  let cn := c.get_context n
  let ctx := cn.1
  let n1 := cn.2
  let pathE : Except String String :=
    if command = "reboot" then Except.ok "/3/0/4"
    else if command = "factory_reset" then Except.ok "/3/0/5"
    else if command = "firmware_update" then Except.ok "/5/0/2"
    else Except.error "Unknown command"
  match pathE with
  | Except.error e => (Except.error e, [], n1)
  | Except.ok path =>
    let uri := mkUri c path
    let req : ExchangeRec := ⟨ctx.id, ctx.bindPort, CoapCode.POST, uri, [], []⟩
    match net uri with
    | Outcome.resp r => (Except.ok r, [req], n1)
    | Outcome.exn e => (Except.error e, [req], n1)

/-- Model of the nested `safe_get` of `get_device_info` (driver lines 84-91):
issues a GET on the shared context, returns the permissively decoded payload
of whatever response arrives, and returns `None` exactly when the await raises
(the response status code is never inspected).  Also returns the record of the
exchange it issued. -/
def safe_get (c : LwM2MClient) (net : String → Outcome) (ctx : Context)
    (path : String) : Option String × ExchangeRec :=
  let uri := mkUri c path
  let req : ExchangeRec := ⟨ctx.id, ctx.bindPort, CoapCode.GET, uri, [], []⟩
  match net uri with
  | Outcome.resp r => (some (pyDecodeIgnore r.payload), req)
  | Outcome.exn _ => (none, req)

/-- Model of `LwM2MClient.get_device_info` (driver lines 74-109): creates one
fresh context shared by all reads, looks up seven paths in `LWM2M_OBJECTS`
(`power` is never looked up), performs the seven safe reads sequentially, and
returns the snapshot dict as an ordered key/value list.  The `.getD ""`
default is never taken since all seven keys are present in the table. -/
def LwM2MClient.get_device_info (c : LwM2MClient) (net : String → Outcome)
    (n : Nat) :
    List (String × Option String) × List ExchangeRec × Nat :=
  let cn := c.get_context n
  let ctx := cn.1
  let n1 := cn.2
  let devobj := (LWM2M_OBJECTS.lookup "device_identity").getD ""
  let mem_obj := (LWM2M_OBJECTS.lookup "memory_free").getD ""
  let mem_total_obj := (LWM2M_OBJECTS.lookup "memory_total").getD ""
  let net_obj := (LWM2M_OBJECTS.lookup "network").getD ""
  let fw_state_obj := (LWM2M_OBJECTS.lookup "firmware_state").getD ""
  let fw_result_obj := (LWM2M_OBJECTS.lookup "firmware_result").getD ""
  let location_obj := (LWM2M_OBJECTS.lookup "location").getD ""
  let identity := safe_get c net ctx devobj
  let memory_free := safe_get c net ctx mem_obj
  let memory_total := safe_get c net ctx mem_total_obj
  let network := safe_get c net ctx net_obj
  let fw_state := safe_get c net ctx fw_state_obj
  let fw_result := safe_get c net ctx fw_result_obj
  let location := safe_get c net ctx location_obj
  ([("identity", identity.1),
    ("memory_free", memory_free.1),
    ("memory_total", memory_total.1),
    ("network", network.1),
    ("firmware_state", fw_state.1),
    ("firmware_update_result", fw_result.1),
    ("location", location.1)],
   [identity.2, memory_free.2, memory_total.2, network.2, fw_state.2,
    fw_result.2, location.2],
   n1)

/-- The HTTP response produced by a handler: status code and JSON body
rendered as an ordered key/value list of strings. -/
structure HttpResponse where
  status : Nat
  body : List (String × String)
deriving DecidableEq, Repr

/-- Model of the `cmd_handler` HTTP handler (driver lines 130-143): the body
argument is the result of `request.json()` (an error when parsing raised, the
parsed object as a key/value list otherwise).  A missing or empty (falsy)
`command` field yields the 400 response before any dispatch; otherwise the
command is executed, a raised exception becoming the 500 response. -/
def cmd_handler (c : LwM2MClient) (net : String → Outcome)
    (body : Except String (List (String × String))) (n : Nat) :
    HttpResponse × List ExchangeRec × Nat :=
  match body with
  | Except.error e => (⟨500, [("error", e)]⟩, [], n)
  | Except.ok data =>
    match data.lookup "command" with
    | none => (⟨400, [("error", "Missing command parameter")]⟩, [], n)
    | some command =>
      if command = "" then (⟨400, [("error", "Missing command parameter")]⟩, [], n)
      else
        match c.execute_command net command n with
        | (Except.ok r, tr, n1) =>
          (⟨200, [("result", "executed"), ("code", r.name),
                  ("payload", pyDecodeIgnore r.payload)]⟩, tr, n1)
        | (Except.error e, tr, n1) => (⟨500, [("error", e)]⟩, tr, n1)

/-- The seven snapshot field names paired with the resource path each one is
read from, in the order `get_device_info` reads and emits them (this is
`LWM2M_OBJECTS` minus `power`, keyed by the snapshot's own field names). -/
def fieldPaths : List (String × String) :=
  [("identity", "/3/0"),
   ("memory_free", "/3/0/10"),
   ("memory_total", "/3/0/9"),
   ("network", "/4/0"),
   ("firmware_state", "/5/0/3"),
   ("firmware_update_result", "/5/0/5"),
   ("location", "/6/0")]

/-- The snapshot value a single safe read produces from an await outcome:
the permissively decoded payload of a delivered response, or the unavailable
marker on a transport exception. -/
def decodeOutcome : Outcome → Option String
  | Outcome.resp r => some (pyDecodeIgnore r.payload)
  | Outcome.exn _ => none

/-- The error message of a driver operation result, empty on success. -/
def errMsgOf : Except String CoapResponse → String
  | Except.error e => e
  | Except.ok _ => ""

/-- Whether `needle` occurs as a contiguous run inside `hay`. -/
def listContainsSub (needle hay : List Char) : Bool :=
  (List.range (hay.length + 1)).any (fun i => needle.isPrefixOf (hay.drop i))

/-- A concrete client built from the driver's default configuration values. -/
def c0 : LwM2MClient := ⟨"127.0.0.1", 5683, "raspi5", 56830⟩

/-- A concrete default context for exercising `safe_get` directly. -/
def ctx0 : Context := ⟨0, "0.0.0.0", 56830⟩

/-- An oracle where every exchange is answered 2.05 Content with payload
`b"hi"`. -/
def netOk : String → Outcome := fun _ => Outcome.resp ⟨"CONTENT", [104, 105]⟩

/-- An oracle where every await raises a transport timeout. -/
def netDown : String → Outcome := fun _ => Outcome.exn "timeout"

/-- An oracle where only the connectivity (`/4/0`) read raises and every other
exchange is answered with payload `b"hi"`. -/
def netOneDown : String → Outcome := fun u =>
  if u = "coap://127.0.0.1:5683/4/0" then Outcome.exn "timeout"
  else Outcome.resp ⟨"CONTENT", [104, 105]⟩

/-- An oracle where the connectivity (`/4/0`) read is answered with a
non-success 4.04 Not Found response carrying an empty payload, and every other
exchange is answered 2.05 with payload `b"hi"`. -/
def netOne404 : String → Outcome := fun u =>
  if u = "coap://127.0.0.1:5683/4/0" then Outcome.resp ⟨"NOT_FOUND", []⟩
  else Outcome.resp ⟨"CONTENT", [104, 105]⟩

/-- An oracle answering every exchange with the payload `b"h\xffi"`, whose
middle byte is not valid UTF-8 anywhere. -/
def netBad : String → Outcome := fun _ => Outcome.resp ⟨"CONTENT", [104, 255, 105]⟩

/-- The first component of a safe read is the permissively decoded payload of
a delivered response and the unavailable marker on an exception. -/
theorem safe_get_fst (c : LwM2MClient) (net : String → Outcome) (ctx : Context)
    (path : String) :
    (safe_get c net ctx path).1 = decodeOutcome (net (mkUri c path)) := by
  simp only [safe_get]
  cases h : net (mkUri c path) <;> simp [h, decodeOutcome]

/-- The exchange a safe read issues is a GET to the composed URI on the given
context, with no query and no payload, whatever the outcome. -/
theorem safe_get_snd (c : LwM2MClient) (net : String → Outcome) (ctx : Context)
    (path : String) :
    (safe_get c net ctx path).2 =
      (⟨ctx.id, ctx.bindPort, CoapCode.GET, mkUri c path, [], []⟩ : ExchangeRec) := by
  simp only [safe_get]
  cases h : net (mkUri c path) <;> simp [h]

/-- Pointwise characterization of the snapshot `get_device_info` returns: one
entry per name of `fieldPaths`, in order, valued by the read outcome of that
entry's path. -/
theorem get_device_info_snapshot (c : LwM2MClient) (net : String → Outcome)
    (n : Nat) :
    (c.get_device_info net n).1 =
      fieldPaths.map (fun q => (q.1, decodeOutcome (net (mkUri c q.2)))) := by
  simp only [LwM2MClient.get_device_info, LwM2MClient.get_context, fieldPaths,
    List.map, safe_get_fst]
  rfl

/-- Characterization of the exchanges `get_device_info` issues: one GET per
entry of `fieldPaths`, in order, all on the context created at entry. -/
theorem get_device_info_trace (c : LwM2MClient) (net : String → Outcome)
    (n : Nat) :
    (c.get_device_info net n).2.1 =
      fieldPaths.map (fun q =>
        (⟨n, c.coap_port, CoapCode.GET, mkUri c q.2, [], []⟩ : ExchangeRec)) := by
  simp only [LwM2MClient.get_device_info, LwM2MClient.get_context, fieldPaths,
    List.map, safe_get_snd]
  rfl

/-- A leading invalid byte 0xFF is silently dropped by the permissive decoder:
it contributes no character at all to the decoded string. -/
theorem decode_drop_255 (bs : Bytes) :
    pyDecodeIgnore (255 :: bs) = pyDecodeIgnore bs := by
  simp only [pyDecodeIgnore, List.length_cons, decodeIgnoreAux]
  rfl

/-- C1: `get_device_info` never fails as a whole.  For every network oracle —
so for every combination of per-read outcomes, including all seven reads
raising — it returns normally with a snapshot of exactly the seven named
fields identity, memory_free, memory_total, network, firmware_state,
firmware_update_result, location, each field being the decoded payload of the
delivered response or the unavailable marker; when every read raises, all
seven fields carry the unavailable marker. -/
theorem C1_getDeviceInfo_total_seven_fields (c : LwM2MClient)
    (net : String → Outcome) (n : Nat) :
    (c.get_device_info net n).1.map Prod.fst =
      ["identity", "memory_free", "memory_total", "network", "firmware_state",
       "firmware_update_result", "location"] ∧
    (c.get_device_info net n).1 =
      fieldPaths.map (fun q => (q.1, decodeOutcome (net (mkUri c q.2)))) ∧
    (c.get_device_info (fun _ => Outcome.exn "down") n).1.map Prod.snd =
      List.replicate 7 none := by
  refine ⟨?_, get_device_info_snapshot c net n, ?_⟩
  · rw [get_device_info_snapshot c net n]; rfl
  · rw [get_device_info_snapshot c (fun _ => Outcome.exn "down") n]; rfl

/-- C2 counterexample: a read that fails only in the sense of a non-success
response status is not marked unavailable.  With the connectivity read
answered by a 4.04 Not Found response with empty payload and every other read
successful, the `network` field of the snapshot is the decoded payload
`some ""`, not the unavailable marker — contradicting the claim that a
non-success status for one read leaves that field unavailable. -/
theorem C2_counterexample_nonsuccess_status_not_unavailable :
    netOne404 (mkUri c0 "/4/0") = Outcome.resp ⟨"NOT_FOUND", []⟩ ∧
    (c0.get_device_info netOne404 0).1.lookup "network" = some (some "") ∧
    (c0.get_device_info netOne404 0).1.lookup "network" ≠ some none := by decide

/-- C2 (amended): per-resource fault isolation for transport errors.  If
exactly one of the seven reads raises a transport exception and the other six
are delivered responses, the snapshot marks exactly the failing resource's
field unavailable and carries the decoded payloads of the other six reads —
one read's failure does not abort or alter the remaining reads.  (A
non-success response status is not treated as a failure by the code: its
payload is decoded like any success, see the counterexample.) -/
theorem C2_one_transport_failure_isolated (c : LwM2MClient)
    (net : String → Outcome) (n : Nat) (fname fpath em : String)
    (hmem : (fname, fpath) ∈ fieldPaths)
    (hfail : net (mkUri c fpath) = Outcome.exn em)
    (hok : ∀ q ∈ fieldPaths, q.1 ≠ fname → (net (mkUri c q.2)).isResp = true) :
    (c.get_device_info net n).1 =
      fieldPaths.map (fun q =>
        (q.1, if q.1 = fname then none
              else some (pyDecodeIgnore ((net (mkUri c q.2)).payloadBytes)))) := by
  rw [get_device_info_snapshot c net n]
  have hdistinct : ∀ q ∈ fieldPaths, q.1 = fname → q.2 = fpath := by
    intro q hq hqf
    subst hqf
    simp only [fieldPaths, List.mem_cons, List.not_mem_nil, or_false] at hmem hq
    rcases hq with h | h | h | h | h | h | h <;> subst h <;>
      rcases hmem with h2 | h2 | h2 | h2 | h2 | h2 | h2 <;>
        simp_all
  have key : ∀ q ∈ fieldPaths,
      decodeOutcome (net (mkUri c q.2)) =
        if q.1 = fname then none
        else some (pyDecodeIgnore ((net (mkUri c q.2)).payloadBytes)) := by
    intro q hq
    by_cases hf : q.1 = fname
    · have hp := hdistinct q hq hf
      rw [if_pos hf, hp, hfail]
      rfl
    · rw [if_neg hf]
      have hr := hok q hq hf
      cases h : net (mkUri c q.2) with
      | resp r => rfl
      | exn e => rw [h] at hr; simp [Outcome.isResp] at hr
  exact List.map_congr_left (fun q hq => by rw [key q hq])

/-- C2 witness: with exactly the connectivity read raising a timeout, the
snapshot marks only `network` unavailable and decodes the other six. -/
theorem C2_one_transport_failure_isolated_witness :
    (c0.get_device_info netOneDown 0).1 =
      fieldPaths.map (fun q =>
        (q.1, if q.1 = "network" then none
              else some (pyDecodeIgnore ((netOneDown (mkUri c0 q.2)).payloadBytes)))) :=
  C2_one_transport_failure_isolated c0 netOneDown 0 "network" "/4/0" "timeout"
    (by decide) (by decide) (by decide)

/-- C3: for every command name outside the command table, `execute_command`
raises `Exception("Unknown command")` — whose message matches "unknown
command" up to letter case — and issues zero network exchanges: the failure
occurs before any network I/O. -/
theorem C3_unknown_command_rejected_before_network (c : LwM2MClient)
    (net : String → Outcome) (command : String) (n : Nat)
    (h1 : command ≠ "reboot") (h2 : command ≠ "factory_reset")
    (h3 : command ≠ "firmware_update") :
    (c.execute_command net command n).1 = Except.error "Unknown command" ∧
    (c.execute_command net command n).2.1 = [] ∧
    listContainsSub ("unknown command".toList)
      ((errMsgOf (c.execute_command net command n).1).toList.map Char.toLower) = true := by
  have hres : c.execute_command net command n =
      (Except.error "Unknown command", [], n + 1) := by
    simp only [LwM2MClient.execute_command, LwM2MClient.get_context]
    rw [if_neg h1, if_neg h2, if_neg h3]
  rw [hres]
  exact ⟨rfl, rfl, rfl⟩

/-- C3 witness: the unknown command "status" is rejected with the unknown
command error and an empty exchange trace. -/
theorem C3_unknown_command_rejected_before_network_witness :
    (c0.execute_command netOk "status" 0).1 = Except.error "Unknown command" ∧
    (c0.execute_command netOk "status" 0).2.1 = [] ∧
    listContainsSub ("unknown command".toList)
      ((errMsgOf (c0.execute_command netOk "status" 0).1).toList.map Char.toLower) = true :=
  C3_unknown_command_rejected_before_network c0 netOk "status" 0
    (by decide) (by decide) (by decide)

/-- C4: registering with no objects supplied issues exactly one POST exchange
to the registration path `/rd` whose query parameters are exactly
`ep=<endpoint-name>`, `lt=86400`, `b=U` in that order, with no `lwm2m`
parameter and an empty payload. -/
theorem C4_register_empty_query_exact (c : LwM2MClient)
    (net : String → Outcome) (n : Nat) :
    LWM2M_REG_PATH = "/rd" ∧
    (c.register net ⟨none⟩ n).2.1 =
      [⟨n, c.coap_port, CoapCode.POST, mkUri c LWM2M_REG_PATH,
        ["ep=" ++ c.epname, "lt=86400", "b=U"], []⟩] := by
  refine ⟨rfl, ?_⟩
  simp only [LwM2MClient.register, LwM2MClient.get_context]
  cases h : net (mkUri c LWM2M_REG_PATH) <;> simp [h]

/-- C5 counterexample: an empty supplied objects list still appends an
`lwm2m` parameter.  `register({"objects": []})` issues the query
`["ep=raspi5", "lt=86400", "b=U", "lwm2m="]` — a fourth `lwm2m` parameter is
present, contradicting the claim that an empty object list yields no `lwm2m`
parameter. -/
theorem C5_counterexample_empty_objects_appends_lwm2m :
    (c0.register netOk ⟨some []⟩ 0).2.1.map (fun e => e.query) =
      [["ep=raspi5", "lt=86400", "b=U", "lwm2m="]] ∧
    ((c0.register netOk ⟨some []⟩ 0).2.1.map
      (fun e => e.query.any (fun s => ("lwm2m=".toList).isPrefixOf s.toList))) =
      [true] := by decide

/-- C5 (amended): the `lwm2m` query parameter is appended, as a fourth
parameter of the form `lwm2m=<comma-joined-objects>` preserving the caller's
order, if and only if the object list is supplied (present with a list
value) — including the empty list, for which the appended parameter is
`lwm2m=` with an empty value; an absent (or non-list) objects entry yields no
`lwm2m` parameter. -/
theorem C5_lwm2m_appended_iff_objects_supplied (c : LwM2MClient)
    (net : String → Outcome) (n : Nat) (objects : Option (List String)) :
    (c.register net ⟨objects⟩ n).2.1.map (fun e => e.query) =
      [(["ep=" ++ c.epname, "lt=86400", "b=U"] ++
        (match objects with
         | none => []
         | some objs => ["lwm2m=" ++ String.intercalate "," objs]))] := by
  cases objects <;>
    · simp only [LwM2MClient.register, LwM2MClient.get_context]
      cases h : net (mkUri c LWM2M_REG_PATH) <;> simp [h]

/-- C6 counterexample: the resource path table has eight entries and `power`
is one of them (mapped to `/3/0/7`), yet `get_device_info` issues only seven
GET exchanges and none of them targets `/3/0/7` — so not every entry of the
table is read. -/
theorem C6_counterexample_power_never_read :
    LWM2M_OBJECTS.lookup "power" = some "/3/0/7" ∧
    LWM2M_OBJECTS.length = 8 ∧
    (c0.get_device_info netOk 0).2.1.length = 7 ∧
    ((c0.get_device_info netOk 0).2.1.map (fun e => e.uri)).contains
      (mkUri c0 "/3/0/7") = false := by decide

/-- C6 (amended): on every call, `get_device_info` issues exactly seven GET
exchanges, one per entry of the resource path table except `power`, in table
order; the table itself has eight entries. -/
theorem C6_seven_gets_table_minus_power (c : LwM2MClient)
    (net : String → Outcome) (n : Nat) :
    (c.get_device_info net n).2.1.map (fun e => (e.method, e.uri)) =
      (LWM2M_OBJECTS.filter (fun kv => kv.1 != "power")).map
        (fun kv => (CoapCode.GET, mkUri c kv.2)) ∧
    (c.get_device_info net n).2.1.length = 7 ∧
    LWM2M_OBJECTS.length = 8 := by
  refine ⟨?_, ?_, rfl⟩
  · rw [get_device_info_trace c net n]; rfl
  · rw [get_device_info_trace c net n]; rfl

/-- C7 counterexample: undecodable bytes do not become placeholder
characters — they are silently dropped.  The invalid byte 0xFF decodes to the
empty string; embedded in `b"h\xffi"` it simply vanishes, yielding `"hi"`
with no replacement character U+FFFD anywhere, while the read still succeeds
with that best-effort string. -/
theorem C7_counterexample_invalid_bytes_dropped_not_replaced :
    pyDecodeIgnore [255] = "" ∧
    pyDecodeIgnore [104, 255, 105] = "hi" ∧
    ((pyDecodeIgnore [104, 255, 105]).toList.contains (Char.ofNat 65533)) = false ∧
    (safe_get c0 netBad ctx0 "/3/0").1 = some "hi" := by decide

/-- C7 (amended): permissive decoding never aborts a read and never fails the
snapshot: whenever a response is delivered, the safe read returns the decoded
payload for every byte-sequence payload whatsoever; undecodable bytes are
silently dropped (contributing no character) rather than replaced by
placeholder characters or raising. -/
theorem C7_permissive_decode_never_fails_read (c : LwM2MClient)
    (net : String → Outcome) (ctx : Context) (path : String) (r : CoapResponse)
    (h : net (mkUri c path) = Outcome.resp r) :
    (safe_get c net ctx path).1 = some (pyDecodeIgnore r.payload) ∧
    pyDecodeIgnore (255 :: r.payload) = pyDecodeIgnore r.payload := by
  refine ⟨?_, decode_drop_255 r.payload⟩
  rw [safe_get_fst, h]
  rfl

/-- C7 witness: a read answered with the invalid-in-the-middle payload
`b"h\xffi"` still succeeds, decoding to a best-effort string. -/
theorem C7_permissive_decode_never_fails_read_witness :
    (safe_get c0 netBad ctx0 "/3/0").1 = some (pyDecodeIgnore [104, 255, 105]) ∧
    pyDecodeIgnore (255 :: [104, 255, 105]) = pyDecodeIgnore [104, 255, 105] :=
  C7_permissive_decode_never_fails_read c0 netBad ctx0 "/3/0"
    ⟨"CONTENT", [104, 255, 105]⟩ (by decide)

/-- C8: every valid command issues exactly one POST exchange, to exactly the
mapped path and no other — reboot to /3/0/4, factory_reset to /3/0/5,
firmware_update to /5/0/2 — with no query and no payload. -/
theorem C8_valid_command_single_post_mapped_path (c : LwM2MClient)
    (net : String → Outcome) (command path : String) (n : Nat)
    (h : (command = "reboot" ∧ path = "/3/0/4") ∨
         (command = "factory_reset" ∧ path = "/3/0/5") ∨
         (command = "firmware_update" ∧ path = "/5/0/2")) :
    (c.execute_command net command n).2.1 =
      [⟨n, c.coap_port, CoapCode.POST, mkUri c path, [], []⟩] := by
  rcases h with ⟨hc, hp⟩ | ⟨hc, hp⟩ | ⟨hc, hp⟩ <;> subst hc <;> subst hp
  · simp only [LwM2MClient.execute_command, LwM2MClient.get_context]
    norm_num
    cases h : net (mkUri c "/3/0/4") <;> simp [h]
  · simp only [LwM2MClient.execute_command, LwM2MClient.get_context]
    norm_num
    cases h : net (mkUri c "/3/0/5") <;> simp [h]
  · simp only [LwM2MClient.execute_command, LwM2MClient.get_context]
    norm_num
    cases h : net (mkUri c "/5/0/2") <;> simp [h]

/-- C8 witness: the reboot command issues exactly one POST to /3/0/4. -/
theorem C8_valid_command_single_post_mapped_path_witness :
    (c0.execute_command netOk "reboot" 0).2.1 =
      [⟨0, 56830, CoapCode.POST, mkUri c0 "/3/0/4", [], []⟩] :=
  C8_valid_command_single_post_mapped_path c0 netOk "reboot" "/3/0/4" 0
    (Or.inl ⟨rfl, rfl⟩)

/-- C9: when the parsed request body has no `command` field, the command
handler returns the 400 client-error response with the missing-command reason
("Missing command parameter"), issuing zero exchanges and creating no context
— no dispatch is attempted. -/
theorem C9_missing_command_field_client_error (c : LwM2MClient)
    (net : String → Outcome) (data : List (String × String)) (n : Nat)
    (h : data.lookup "command" = none) :
    cmd_handler c net (Except.ok data) n =
      (⟨400, [("error", "Missing command parameter")]⟩, [], n) := by
  simp only [cmd_handler, h]

/-- C9 witness: the empty parsed body yields the 400 missing-command result
with no exchange. -/
theorem C9_missing_command_field_client_error_witness :
    cmd_handler c0 netOk (Except.ok []) 0 =
      (⟨400, [("error", "Missing command parameter")]⟩, [], 0) :=
  C9_missing_command_field_client_error c0 netOk [] 0 rfl

/-- C10: each of register, execute_command and get_device_info creates its
own context: entering with `n` contexts already created, every exchange the
call issues is carried by the brand new context `n` bound to the configured
local port, and the call leaves the creation count at `n + 1` — so no context
is ever reused across operation calls (the count only grows and each call
uses exactly the context numbered by its entry count), while the seven reads
of one get_device_info call all share that call's single context. -/
theorem C10_fresh_context_per_operation (c : LwM2MClient)
    (net : String → Outcome) (p : RegParams) (command : String) (n : Nat) :
    ((c.register net p n).2.1.map (fun e => (e.ctxId, e.ctxPort)) =
       (c.register net p n).2.1.map (fun _ => (n, c.coap_port)) ∧
     (c.register net p n).2.2 = n + 1) ∧
    ((c.execute_command net command n).2.1.map (fun e => (e.ctxId, e.ctxPort)) =
       (c.execute_command net command n).2.1.map (fun _ => (n, c.coap_port)) ∧
     (c.execute_command net command n).2.2 = n + 1) ∧
    ((c.get_device_info net n).2.1.map (fun e => (e.ctxId, e.ctxPort)) =
       List.replicate 7 (n, c.coap_port) ∧
     (c.get_device_info net n).2.2 = n + 1) := by
  refine ⟨⟨?_, ?_⟩, ⟨?_, ?_⟩, ?_, rfl⟩
  · rcases p with ⟨objects⟩
    cases objects <;>
      · simp only [LwM2MClient.register, LwM2MClient.get_context]
        cases h : net (mkUri c LWM2M_REG_PATH) <;> simp [h]
  · rcases p with ⟨objects⟩
    cases objects <;>
      · simp only [LwM2MClient.register, LwM2MClient.get_context]
        cases h : net (mkUri c LWM2M_REG_PATH) <;> simp [h]
  · by_cases h1 : command = "reboot"
    · subst h1
      simp only [LwM2MClient.execute_command, LwM2MClient.get_context]
      norm_num
      cases h : net (mkUri c "/3/0/4") <;> simp [h]
    · by_cases h2 : command = "factory_reset"
      · subst h2
        simp only [LwM2MClient.execute_command, LwM2MClient.get_context]
        norm_num
        cases h : net (mkUri c "/3/0/5") <;> simp [h]
      · by_cases h3 : command = "firmware_update"
        · subst h3
          simp only [LwM2MClient.execute_command, LwM2MClient.get_context]
          norm_num
          cases h : net (mkUri c "/5/0/2") <;> simp [h]
        · simp only [LwM2MClient.execute_command, LwM2MClient.get_context]
          rw [if_neg h1, if_neg h2, if_neg h3]
          rfl
  · by_cases h1 : command = "reboot"
    · subst h1
      simp only [LwM2MClient.execute_command, LwM2MClient.get_context]
      norm_num
      cases h : net (mkUri c "/3/0/4") <;> simp [h]
    · by_cases h2 : command = "factory_reset"
      · subst h2
        simp only [LwM2MClient.execute_command, LwM2MClient.get_context]
        norm_num
        cases h : net (mkUri c "/3/0/5") <;> simp [h]
      · by_cases h3 : command = "firmware_update"
        · subst h3
          simp only [LwM2MClient.execute_command, LwM2MClient.get_context]
          norm_num
          cases h : net (mkUri c "/5/0/2") <;> simp [h]
        · simp only [LwM2MClient.execute_command, LwM2MClient.get_context]
          rw [if_neg h1, if_neg h2, if_neg h3]
  · rw [get_device_info_trace c net n]; rfl
